import Mathlib

/-!
Shallow embedding of the bsock session layer (lib/socket.js).

The socket is modelled as a pure state record; every method of the class
becomes a function from the state (plus the inputs the method reads) to a
new state together with a trace of primitive observable effects, in the
order the corresponding statements execute.  Fallible methods (those that
throw) return `Except String`.  External collaborators (the frame parser,
the packet codec, JSON parsing, the blacklist table and the close-code
table, which live outside src/) are taken as parameters of the functions
that consume them.
-/

namespace Bsock

/-- JavaScript values as consumed by the socket layer: the JSON-decodable
values plus `undefined`.  Numbers are modelled as integers (the code never
produces or compares fractional values on the paths modelled here). -/
inductive JSVal where
  | vundef
  | vnull
  | vbool (b : Bool)
  | vnum (n : Int)
  | vstr (s : String)
  | varr (xs : List JSVal)
  | vobj (fields : List (String × JSVal))

/-- JavaScript truthiness of a value. -/
def jsTruthy : JSVal → Bool
  | JSVal.vundef => false
  | JSVal.vnull => false
  | JSVal.vbool b => b
  | JSVal.vnum n => n != 0
  | JSVal.vstr s => s != ""
  | JSVal.varr _ => true
  | JSVal.vobj _ => true

/-- Loose equality with null (`x == null`): true for null and undefined. -/
def looseNull : JSVal → Bool
  | JSVal.vnull => true
  | JSVal.vundef => true
  | _ => false

/-- `Array.isArray`. -/
def isArr : JSVal → Bool
  | JSVal.varr _ => true
  | _ => false

/-- `typeof v === "string"`. -/
def isStr : JSVal → Bool
  | JSVal.vstr _ => true
  | _ => false

/-- `typeof v === "object"` (true for null, arrays and plain objects). -/
def typeofObject : JSVal → Bool
  | JSVal.vnull => true
  | JSVal.varr _ => true
  | JSVal.vobj _ => true
  | _ => false

/-- `v === null || typeof v === "number" || typeof v === "string"`:
the guard of `castCode`. -/
def isNullNumStr : JSVal → Bool
  | JSVal.vnull => true
  | JSVal.vnum _ => true
  | JSVal.vstr _ => true
  | _ => false

/-- Property read `v[k]`; missing properties read as `undefined`. -/
def getField (v : JSVal) (k : String) : JSVal :=
  match v with
  | JSVal.vobj fields => (fields.lookup k).getD JSVal.vundef
  | _ => JSVal.vundef

/-- `castCode` from lib/socket.js: keep null, numbers and strings,
anything else becomes null. -/
def castCode (code : JSVal) : JSVal :=
  match code with
  | JSVal.vnull => JSVal.vnull
  | JSVal.vnum n => JSVal.vnum n
  | JSVal.vstr s => JSVal.vstr s
  | _ => JSVal.vnull

/-- `castMsg` from lib/socket.js: non-strings become "No message.". -/
def castMsg (msg : JSVal) : String :=
  match msg with
  | JSVal.vstr s => s
  | _ => "No message."

/-- `castType` from lib/socket.js: non-strings become null. -/
def castType (ty : JSVal) : JSVal :=
  match ty with
  | JSVal.vstr s => JSVal.vstr s
  | _ => JSVal.vnull

/-- Message text of the TypeError raised by `enforce(value, name, type)`.
The JS message wraps the name in single quote marks; those are dropped
here, the message is used only as an error token. -/
def enforceMsg (name ty : String) : String :=
  name ++ " must be a(n) " ++ ty ++ "."

/-- Error value carried by a job rejection or an error emission:
the fields set on the `Error` object (`message`, `code`, `type`). -/
structure ErrObj where
  message : String
  code : JSVal
  type : JSVal

/-- The error every outstanding job is rejected with on `close` and on
job expiry: `new Error("Job timed out.")` (no code or type fields). -/
def jobTimeoutErr : ErrObj :=
  ⟨"Job timed out.", JSVal.vundef, JSVal.vundef⟩

/-- Packet types (lib/packet, consumed interface). -/
inductive PacketType where
  | CONNECT
  | DISCONNECT
  | EVENT
  | ACK
  | ERROR
  | BINARY_EVENT
  | BINARY_ACK

/-- Frame types (lib/frame, consumed interface). -/
inductive FrameType where
  | OPEN
  | CLOSE
  | PING
  | PONG
  | MESSAGE
  | UPGRADE
  | NOOP

/-- An outbound packet as handed to the packet codec: type, correlation
id (-1 means none), optional payload set via `setData`, and binary
buffers.  Serialisation (`toString`) is external to src/ and kept
abstract: the packet travels inside the frame payload as-is. -/
structure OutPacket where
  ptype : PacketType
  id : Int := -1
  pdata : Option JSVal := none
  buffers : List (List Nat) := []

/-- Payload of an outbound frame: text, raw bytes, the textual
serialisation of a packet (kept abstract), or no payload at all
(frames sent with `data === undefined`, e.g. PING/PONG/CLOSE). -/
inductive OutData where
  | txt (s : String)
  | bin (bytes : List Nat)
  | pktText (p : OutPacket)
  | nodata

/-- An outbound frame (`new Frame(type, data, binary)`). -/
structure OutFrame where
  type : FrameType
  data : OutData

/-- The `binary` flag of an outbound frame; in the code it is passed
explicitly and is true exactly for the raw-bytes frames sent by
`sendBinary`. -/
def OutFrame.binary (f : OutFrame) : Bool :=
  match f.data with
  | OutData.bin _ => true
  | _ => false

/-- An inbound packet as produced by `Packet.fromString` plus the
attachment buffers accumulated during reassembly.  `getData` is external
to src/, so the decoded payload is supplied separately where needed. -/
structure InPacket where
  ptype : PacketType
  id : Int := -1
  attachments : Nat := 0
  buffers : List (List Nat) := []

/-- Payload of an inbound frame delivered by the parser. -/
inductive InData where
  | txt (s : String)
  | bin (bytes : List Nat)

/-- An inbound frame delivered by the parser. -/
structure InFrame where
  type : FrameType
  data : InData

/-- The `binary` flag of an inbound frame. -/
def InFrame.binary (f : InFrame) : Bool :=
  match f.data with
  | InData.bin _ => true
  | _ => false

/-- Primitive observable effects of the session, recorded in statement
execution order.  `setConn` marks the assignment of the `connected`
flag inside `onOpen` (needed to state ordering claims); `wsSend f raw`
is a transport write with `raw` telling whether `toRaw` (binary) or
`toString` was used; the `job*` effects record job-table removal and
promise settlement; the `emit*` effects are emissions on the socket
event emitter; `eventsEmit` is dispatch on the application event bus. -/
inductive Effect where
  | setConn (b : Bool)
  | wsSend (f : OutFrame) (raw : Bool)
  | wsNew
  | wsDetach
  | wsClose
  | jobDelete (id : Int)
  | jobResolve (id : Int) (v : JSVal)
  | jobReject (id : Int) (e : ErrObj)
  | emitOpen
  | emitClose
  | emitErr (message : String)
  | emitWsErr (message : String) (reason : String) (code : Nat)
  | emitErrObj (e : ErrObj)
  | eventsEmit (args : List JSVal)
  | removeListeners

/-- The mutable state of a `Socket`, field for field.  `jobs` maps call
ids to issue timestamps (the resolve/reject callbacks are represented by
the `jobResolve`/`jobReject` effects); `hooks` keeps the bound hook
names; `listeners` the names registered on the application bus;
`hasWs`/`timer` stand for `this.ws != null` / `this.timer != null`. -/
structure Socket where
  inbound : Bool := false
  connected : Bool := false
  challenge : Bool := false
  destroyed : Bool := false
  binary : Bool := false
  hasWs : Bool := false
  timer : Bool := false
  time : Nat := 0
  sequence : Nat := 0
  pingInterval : Nat := 25000
  pingTimeout : Nat := 60000
  lastPing : Nat := 0
  packet : Option InPacket := none
  jobs : List (Int × Nat) := []
  buffer : List OutFrame := []
  hooks : List String := []
  listeners : List String := []

/-- `Socket#send`: buffer the frame while not connected, otherwise write
it to the transport, raw exactly when both the frame and the peer are
binary. -/
def send (s : Socket) (f : OutFrame) : Socket × List Effect :=
  if !s.connected then
    ({ s with buffer := s.buffer ++ [f] }, [])
  else
    (s, [Effect.wsSend f (f.binary && s.binary)])

/-- The loop in `Socket#sendPacket` transmitting `packet.buffers` as
binary MESSAGE frames. -/
def sendBinaries (s : Socket) : List (List Nat) → Socket × List Effect
  | [] => (s, [])
  | b :: rest =>
    let p1 := send s ⟨FrameType.MESSAGE, OutData.bin b⟩
    let p2 := sendBinaries p1.1 rest
    (p2.1, p1.2 ++ p2.2)

/-- `Socket#sendPacket`: one textual MESSAGE frame carrying the packet,
then each binary buffer as a binary MESSAGE frame, in order. -/
def sendPacketFn (s : Socket) (p : OutPacket) : Socket × List Effect :=
  let p1 := send s ⟨FrameType.MESSAGE, OutData.pktText p⟩
  let p2 := sendBinaries p1.1 p.buffers
  (p2.1, p1.2 ++ p2.2)

/-- The handshake JSON built by `Socket#sendHandshake`
(`JSON.stringify` of sid, upgrades, pingInterval, pingTimeout). -/
def handshakeJSON (pi pt : Nat) : String :=
  "\x7b\"sid\":\"00000000000000000000\",\"upgrades\":[],\"pingInterval\":"
    ++ toString pi ++ ",\"pingTimeout\":" ++ toString pt ++ "\x7d"

/-- The flush loop in `Socket#onOpen` (`for (const frame of this.buffer)
this.send(frame)`). -/
def flush (s : Socket) : List OutFrame → Socket × List Effect
  | [] => (s, [])
  | f :: rest =>
    let p1 := send s f
    let p2 := flush p1.1 rest
    (p2.1, p1.2 ++ p2.2)

/-- `Socket#onOpen`: set `connected`, for inbound sessions send the
handshake OPEN frame and a CONNECT packet, flush the buffer, clear it,
emit `open`. -/
def onOpen (s : Socket) : Socket × List Effect :=
  let s1 : Socket := { s with connected := true }
  let mid : Socket × List Effect :=
    if s1.inbound then
      let p1 := send s1 ⟨FrameType.OPEN,
        OutData.txt (handshakeJSON s1.pingInterval s1.pingTimeout)⟩
      let p2 := sendPacketFn p1.1 { ptype := PacketType.CONNECT }
      (p2.1, p1.2 ++ p2.2)
    else (s1, [])
  let fl := flush mid.1 mid.1.buffer
  ({ fl.1 with buffer := [] },
    Effect.setConn true :: (mid.2 ++ fl.2 ++ [Effect.emitOpen]))

/-- The job-rejection loop of `Socket#close`: each outstanding job is
removed from the table and then rejected with "Job timed out.". -/
def jobTrace : List (Int × Nat) → List Effect
  | [] => []
  | (id, _) :: rest =>
    Effect.jobDelete id :: Effect.jobReject id jobTimeoutErr :: jobTrace rest

/-- `Socket#close`: stamp `time`, clear the reassembly slot and the
lifecycle flags, reset `sequence` and `lastPing`, reject and remove all
jobs, and when a transport exists replace its callbacks with no-ops and
close it.  Emits nothing on the socket emitter. -/
def close (now : Nat) (s : Socket) : Socket × List Effect :=
  let s1 : Socket := { s with
    time := now
    packet := none
    connected := false
    challenge := false
    sequence := 0
    lastPing := 0
    jobs := [] }
  (s1,
    if s.hasWs then jobTrace s.jobs ++ [Effect.wsDetach, Effect.wsClose]
    else jobTrace s.jobs)

/-- `Socket#stop`: clear the liveness timer. -/
def stop (s : Socket) : Socket :=
  { s with timer := false }

/-- `Socket#destroy`: a no-op when already destroyed; otherwise set the
flag, drop the send buffer, run `close`, stop the timer, emit `close`
and remove the socket listeners. -/
def destroy (now : Nat) (s : Socket) : Socket × List Effect :=
  if s.destroyed then (s, [])
  else
    let s1 : Socket := { s with destroyed := true, buffer := [] }
    let p1 := close now s1
    (stop p1.1, p1.2 ++ [Effect.emitClose, Effect.removeListeners])

/-- `Socket#reconnect`: close, then attach a fresh transport to the
stored url and bind it. -/
def reconnect (now : Nat) (s : Socket) : Socket × List Effect :=
  let p1 := close now s
  ({ p1.1 with hasWs := true }, p1.2 ++ [Effect.wsNew])

/-- The job-expiry loop of `Socket#stall`: jobs older than 600000 ms are
removed and rejected; the others are kept in order. -/
def expireJobs (now : Nat) : List (Int × Nat) → List (Int × Nat) × List Effect
  | [] => ([], [])
  | (id, t) :: rest =>
    let p := expireJobs now rest
    if now - t > 600000 then
      (p.1, Effect.jobDelete id :: Effect.jobReject id jobTimeoutErr :: p.2)
    else
      ((id, t) :: p.1, p.2)

/-- `Socket#stall`, the 5-second liveness tick: connect timeout while
not connected (destroy inbound, reconnect outbound), job expiry, ping
challenge, and ping timeout (destroy inbound, close outbound). -/
def stall (now : Nat) (s : Socket) : Socket × List Effect :=
  if !s.connected then
    if now - s.time > 10000 then
      if s.inbound then
        let p := destroy now s
        (p.1, Effect.emitErr "Timed out waiting for connection." :: p.2)
      else
        let p := reconnect now s
        (p.1, Effect.emitErr "Timed out waiting for connection." :: p.2)
    else (s, [])
  else
    let ex := expireJobs now s.jobs
    let s1 : Socket := { s with jobs := ex.1 }
    if !s1.challenge then
      let p := send { s1 with challenge := true, lastPing := now }
        ⟨FrameType.PING, OutData.nodata⟩
      (p.1, ex.2 ++ p.2)
    else if now - s1.lastPing > s1.pingTimeout then
      if s1.inbound then
        let p := destroy now s1
        (p.1, ex.2 ++ [Effect.emitErr "Connection is stalling (ping)."] ++ p.2)
      else
        let p := close now s1
        (p.1, ex.2 ++ [Effect.emitErr "Connection is stalling (ping)."] ++ p.2)
    else (s1, ex.2)

/-- Whether a close code is treated as clean by `Socket#onClose`. -/
def cleanClose (c : Nat) : Bool :=
  c == 1000 || c == 1001

/-- `Socket#onClose`.  The static close-code table (lib/codes) is not
under src/ and is passed in as a finite map; per the consumed interface
a miss maps to UNKNOWN_CODE.  Clean codes 1000/1001 skip the synthesized
error but still emit "Could not connect." when the session never
connected; afterwards inbound sessions destroy and outbound sessions
close. -/
def onClose (codes : List (Nat × String)) (now : Nat) (s : Socket)
    (code : Nat) (reason : String) : Socket × List Effect :=
  if cleanClose code then
    let t0 : List Effect :=
      if !s.connected then [Effect.emitErr "Could not connect."] else []
    if s.inbound then
      let p := destroy now s
      (p.1, t0 ++ p.2)
    else
      let p := close now s
      (p.1, t0 ++ p.2)
  else
    let nm := (codes.lookup code).getD "UNKNOWN_CODE"
    let rsn := if reason == "" then "Unknown reason" else reason
    let msg := "Websocket Closed: " ++ rsn ++ " (code=" ++ nm ++ ")."
    let t0 : List Effect := [Effect.emitWsErr msg reason code]
    if s.inbound then
      let p := destroy now s
      (p.1, t0 ++ p.2)
    else
      let p := close now s
      (p.1, t0 ++ p.2)

/-- Removal of a key from the jobs map (`this.jobs.delete(id)`). -/
def eraseJob : List (Int × Nat) → Int → List (Int × Nat)
  | [], _ => []
  | (k, v) :: rest, id =>
    if k == id then rest else (k, v) :: eraseJob rest id

/-- `Socket#handleAck`: a missing job is a frame-level error; otherwise
the job is removed from the table and then resolved with the data. -/
def handleAck (s : Socket) (id : Int) (data : JSVal) :
    Except String (Socket × List Effect) :=
  match s.jobs.lookup id with
  | none => Except.error ("Job not found for " ++ toString id ++ ".")
  | some _ => Except.ok ({ s with jobs := eraseJob s.jobs id },
      [Effect.jobDelete id, Effect.jobResolve id data])

/-- `Socket#handleError`: cast the three error fields; with id -1 emit
the error on the socket, otherwise reject the matching job (a missing
job is a frame-level error), removing it from the table first. -/
def handleError (s : Socket) (id : Int) (err : JSVal) :
    Except String (Socket × List Effect) :=
  let msg := castMsg (getField err "message")
  let code := castCode (getField err "code")
  let ty := castType (getField err "type")
  if id == -1 then
    Except.ok (s, [Effect.emitErrObj ⟨msg, code, ty⟩])
  else
    match s.jobs.lookup id with
    | none => Except.error ("Job not found for " ++ toString id ++ ".")
    | some _ => Except.ok ({ s with jobs := eraseJob s.jobs id },
        [Effect.jobDelete id, Effect.jobReject id ⟨msg, code, ty⟩])

/-- `err = json[0]` of the ACK arm (`let err = null` then conditional
assignment when the array is non-empty). -/
def ackErrOf : JSVal → JSVal
  | JSVal.varr (e :: _) => e
  | _ => JSVal.vnull

/-- `result = json[1]` of the ACK arm, with the `result == null`
coercion to null folded in. -/
def ackResultOf : JSVal → JSVal
  | JSVal.varr (_ :: r :: _) => if looseNull r then JSVal.vnull else r
  | _ => JSVal.vnull

/-- The ACK / BINARY_ACK arm of `Socket#handlePacket`: the id must not
be -1, the decoded data (`packet.getData()`, supplied by the external
codec) must be null or an array; a truthy first element must be an
object and routes to `handleError`, otherwise the second element
(coerced nullish to null) routes to `handleAck`. -/
def ackArm (s : Socket) (pid : Int) (json : JSVal) :
    Except String (Socket × List Effect) :=
  if pid == -1 then Except.error (enforceMsg "id" "uint32")
  else if !(looseNull json || isArr json) then
    Except.error (enforceMsg "args" "array")
  else
    let err := ackErrOf json
    let result := ackResultOf json
    if jsTruthy err then
      if !(typeofObject err) then Except.error (enforceMsg "error" "object")
      else handleError s pid err
    else handleAck s pid result

/-- Blacklist table.  Modelled from the spec: the blacklist module
(lib/blacklist) is not under src/; the spec lists the standard
EventEmitter lifecycle names (newListener, removeListener, error). -/
def blacklistSpec (name : String) : Bool :=
  name == "newListener" || name == "removeListener" || name == "error"

/-- `Socket#listen` with the blacklist table as a parameter.  The event
name is a string and the handler a function by typing, so the two
`enforce` guards are satisfied; the blacklist assertion remains. -/
def listen (bl : String → Bool) (s : Socket) (ev : String) :
    Except String Socket :=
  if bl ev then Except.error "Blacklisted event."
  else Except.ok { s with listeners := s.listeners ++ [ev] }

/-- `Socket#hook` with the blacklist table as a parameter: rebinding an
already bound name fails first, then the blacklist assertion. -/
def hook (bl : String → Bool) (s : Socket) (ev : String) :
    Except String Socket :=
  if s.hooks.contains ev then Except.error "Hook already bound."
  else if bl ev then Except.error "Blacklisted event."
  else Except.ok { s with hooks := s.hooks ++ [ev] }

/-- `Socket#sendError`: cast the fields of the thrown error, then send
either an ERROR packet (id -1) or an ACK packet carrying the error
object as single array element. -/
def sendErrorFn (s : Socket) (id : Int) (emsg ecode etype : JSVal) :
    Socket × List Effect :=
  let message := castMsg emsg
  let code := castCode ecode
  let ty := castType etype
  let payload := JSVal.vobj
    [("message", JSVal.vstr message), ("code", code), ("type", ty)]
  if id == -1 then
    sendPacketFn s { ptype := PacketType.ERROR, pdata := some payload }
  else
    sendPacketFn s { ptype := PacketType.ACK
                     id := id
                     pdata := some (JSVal.varr [payload]) }

/-- `Socket#fire`: require a non-empty argument list with a string event
name, then send a fire-and-forget EVENT packet (id stays -1).  Note the
method consults no blacklist. -/
def fire (s : Socket) (args : List JSVal) :
    Except String (Socket × List Effect) :=
  match args with
  | [] => Except.error (enforceMsg "event" "string")
  | a :: _ =>
    if !(isStr a) then Except.error (enforceMsg "event" "string")
    else Except.ok (sendPacketFn s
      { ptype := PacketType.EVENT, pdata := some (JSVal.varr args) })

/-- `Socket#handleEvent` (args already validated by `handlePacket` to
start with a string name): a blacklisted name makes the handler throw
internally, and the catch reports the error back as an ERROR packet
instead of dispatching; otherwise the arguments are emitted on the
application bus.  Listener exceptions (also routed to `sendError`) are
outside the model: listeners are external code. -/
def handleEvent (bl : String → Bool) (s : Socket) (name : String)
    (rest : List JSVal) : Socket × List Effect :=
  if bl name then
    sendErrorFn s (-1)
      (JSVal.vstr ("Cannot emit blacklisted event: " ++ name ++ "."))
      JSVal.vundef JSVal.vundef
  else
    (s, [Effect.eventsEmit (JSVal.vstr name :: rest)])

/-- `Socket#call`: the two `enforce` guards, allocation of the current
sequence value as the id, increment with the `>>> 0` wrap to 32 bits,
the collision assertion, the outgoing EVENT packet, and registration of
the job. -/
def call (now : Nat) (s : Socket) (args : List JSVal) :
    Except String (Socket × Int × List Effect) :=
  match args with
  | [] => Except.error (enforceMsg "event" "string")
  | a :: _ =>
    if !(isStr a) then Except.error (enforceMsg "event" "string")
    else
      let id : Int := Int.ofNat s.sequence
      let seq1 := (s.sequence + 1) % 4294967296
      if (s.jobs.lookup id).isSome then Except.error "ID collision."
      else
        let p := sendPacketFn { s with sequence := seq1 }
          { ptype := PacketType.EVENT
            id := id
            pdata := some (JSVal.varr args) }
        Except.ok ({ p.1 with jobs := p.1.jobs ++ [(id, now)] }, id, p.2)

/-- The uint32 field check of `Socket#handleOpen`
(`(x >>> 0) === x` holds exactly for integer numbers in [0, 2^32)). -/
def uint32Of : JSVal → Option Nat
  | JSVal.vnum n => if 0 ≤ n ∧ n < 4294967296 then some n.toNat else none
  | _ => none

/-- `Socket#handleOpen` with JSON parsing (external) as a parameter:
binary frames are rejected, the parsed value must be a (truthy) object,
and pingInterval/pingTimeout must be uint32s, which are then stored. -/
def handleOpen (jparse : String → Except String JSVal) (s : Socket)
    (f : InFrame) : Except String Socket :=
  match f.data with
  | InData.bin _ => Except.error "Received a binary open frame."
  | InData.txt str =>
    match jparse str with
    | Except.error e => Except.error e
    | Except.ok j =>
      if !(jsTruthy j && typeofObject j) then
        Except.error (enforceMsg "open" "object")
      else
        match uint32Of (getField j "pingInterval"),
              uint32Of (getField j "pingTimeout") with
        | some pi, some pt =>
          Except.ok { s with pingInterval := pi, pingTimeout := pt }
        | none, _ => Except.error (enforceMsg "interval" "uint32")
        | _, none => Except.error (enforceMsg "timeout" "uint32")

/-- `Socket#handleClose`: reply with a CLOSE frame, then destroy
(inbound) or close (outbound). -/
def handleClose (now : Nat) (s : Socket) : Socket × List Effect :=
  if s.inbound then
    let p1 := send s ⟨FrameType.CLOSE, OutData.nodata⟩
    let p2 := destroy now p1.1
    (p2.1, p1.2 ++ p2.2)
  else
    let p1 := send s ⟨FrameType.CLOSE, OutData.nodata⟩
    let p2 := close now p1.1
    (p2.1, p1.2 ++ p2.2)

/-- `Socket#handlePong`: a pong without an outstanding challenge emits
an error and destroys the session; otherwise the challenge clears. -/
def handlePong (now : Nat) (s : Socket) : Socket × List Effect :=
  if !s.challenge then
    let p := destroy now s
    (p.1, Effect.emitErr "Remote node sent bad pong." :: p.2)
  else
    ({ s with challenge := false }, [])

/-- `Socket#handleMessage` with the packet codec (`Packet.fromString`,
external) as a parameter.  Returns the new state and the packet handed
to `handlePacket`, if any.  With a reassembly in progress a textual
MESSAGE is an error and a binary one appends its bytes, dispatching once
the attachment count is reached; with no reassembly a binary frame is an
error and a textual frame either starts a reassembly (attachments > 0)
or dispatches immediately. -/
def handleMessage (fromString : String → InPacket) (s : Socket)
    (f : InFrame) : Except String (Socket × Option InPacket) :=
  match s.packet with
  | some p =>
    match f.data with
    | InData.txt _ => Except.error "Received non-binary frame as attachment."
    | InData.bin bytes =>
      let p1 : InPacket := { p with buffers := p.buffers ++ [bytes] }
      if p1.buffers.length == p1.attachments then
        Except.ok ({ s with packet := none }, some p1)
      else
        Except.ok ({ s with packet := some p1 }, none)
  | none =>
    match f.data with
    | InData.bin _ => Except.error "Received binary frame as a message."
    | InData.txt str =>
      let p := fromString str
      if 0 < p.attachments then
        Except.ok ({ s with packet := some p }, none)
      else
        Except.ok (s, some p)

/-- `Socket#handleFrame`: dispatch on the frame type.  MESSAGE frames go
through reassembly; the other types run their handlers regardless of any
reassembly in progress.  The third component is the packet handed on to
`handlePacket`, if any. -/
def handleFrame (jparse : String → Except String JSVal)
    (fromString : String → InPacket) (now : Nat) (s : Socket)
    (f : InFrame) : Except String (Socket × List Effect × Option InPacket) :=
  match f.type with
  | FrameType.OPEN =>
    match handleOpen jparse s f with
    | Except.error e => Except.error e
    | Except.ok s1 => Except.ok (s1, [], none)
  | FrameType.CLOSE =>
    let p := handleClose now s
    Except.ok (p.1, p.2, none)
  | FrameType.PING =>
    let p := send s ⟨FrameType.PONG, OutData.nodata⟩
    Except.ok (p.1, p.2, none)
  | FrameType.PONG =>
    let p := handlePong now s
    Except.ok (p.1, p.2, none)
  | FrameType.MESSAGE =>
    match handleMessage fromString s f with
    | Except.error e => Except.error e
    | Except.ok (s1, disp) => Except.ok (s1, [], disp)
  | FrameType.UPGRADE => Except.error "Cannot upgrade from websocket."
  | FrameType.NOOP => Except.ok (s, [], none)

/-- True for transport-write effects. -/
def wsSendB : Effect → Bool
  | Effect.wsSend _ _ => true
  | _ => false

/-- True for emissions on the error channel. -/
def emitErrB : Effect → Bool
  | Effect.emitErr _ => true
  | Effect.emitWsErr _ _ _ => true
  | Effect.emitErrObj _ => true
  | _ => false

/-- True for the `close` emission. -/
def emitCloseB : Effect → Bool
  | Effect.emitClose => true
  | _ => false

/-- True for dispatch on the application event bus. -/
def eventsEmitB : Effect → Bool
  | Effect.eventsEmit _ => true
  | _ => false

/-- Whether a trace emits anything on the error channel. -/
def hasEmitErr (tr : List Effect) : Bool :=
  tr.any emitErrB

/-- Whether a trace emits `close`. -/
def hasEmitClose (tr : List Effect) : Bool :=
  tr.any emitCloseB

/-- Whether a trace dispatches on the application event bus. -/
def hasEventsEmit (tr : List Effect) : Bool :=
  tr.any eventsEmitB

/-- Whether a fallible operation succeeded (did not throw). -/
def isOkB {α : Type} : Except String α → Bool
  | Except.ok _ => true
  | Except.error _ => false

/-- The id allocated by a successful `call`. -/
def callIdOf : Except String (Socket × Int × List Effect) → Option Int
  | Except.ok (_, id, _) => some id
  | Except.error _ => none

/-- The sequence counter left behind by a successful `call`. -/
def callSeqOf : Except String (Socket × Int × List Effect) → Option Nat
  | Except.ok (s1, _, _) => some s1.sequence
  | Except.error _ => none

/-!  Helper lemmas shared by the claim theorems. -/

theorem flush_connected (s : Socket) (bs : List OutFrame)
    (h : s.connected = true) :
    flush s bs = (s, bs.map fun f => Effect.wsSend f (f.binary && s.binary)) := by
  induction bs with
  | nil => rfl
  | cons f rest ih => simp [flush, send, h, ih]

theorem send_sequence (s : Socket) (f : OutFrame) :
    (send s f).1.sequence = s.sequence := by
  by_cases h : s.connected <;> simp [send, h]

theorem sendPacketFn_sequence (s : Socket) (p : OutPacket)
    (h : p.buffers = []) :
    (sendPacketFn s p).1.sequence = s.sequence := by
  simp [sendPacketFn, h, sendBinaries, send_sequence]

theorem jobReject_mem_jobTrace (jobs : List (Int × Nat)) (id : Int) (t : Nat)
    (h : (id, t) ∈ jobs) :
    Effect.jobReject id jobTimeoutErr ∈ jobTrace jobs := by
  induction jobs with
  | nil => cases h
  | cons a rest ih =>
    rcases a with ⟨k, v⟩
    rcases List.mem_cons.mp h with h1 | h2
    · rw [jobTrace]
      have hk : k = id := congrArg Prod.fst h1.symm
      subst hk
      exact List.mem_cons_of_mem _ (List.mem_cons_self _ _)
    · rw [jobTrace]
      exact List.mem_cons_of_mem _ (List.mem_cons_of_mem _ (ih h2))

theorem emitCloseB_jobTrace (jobs : List (Int × Nat)) :
    (jobTrace jobs).any emitCloseB = false := by
  induction jobs with
  | nil => rfl
  | cons a rest ih =>
    rcases a with ⟨k, v⟩
    simp [jobTrace, emitCloseB, ih]

theorem emitErrB_jobTrace (jobs : List (Int × Nat)) :
    (jobTrace jobs).any emitErrB = false := by
  induction jobs with
  | nil => rfl
  | cons a rest ih =>
    rcases a with ⟨k, v⟩
    simp [jobTrace, emitErrB, ih]

theorem hasEmitErr_close (now : Nat) (s : Socket) :
    hasEmitErr (close now s).2 = false := by
  by_cases h : s.hasWs <;>
    simp [close, h, hasEmitErr, emitErrB, emitErrB_jobTrace]

theorem hasEmitErr_destroy (now : Nat) (s : Socket) :
    hasEmitErr (destroy now s).2 = false := by
  by_cases h : s.destroyed
  · simp [destroy, h, hasEmitErr]
  · have hc := hasEmitErr_close now { s with destroyed := true, buffer := [] }
    simp [destroy, h, hasEmitErr, emitErrB] at hc ⊢
    exact hc

theorem destroy_destroyed (now : Nat) (s : Socket) :
    (destroy now s).1.destroyed = true := by
  by_cases h : s.destroyed <;> by_cases h2 : s.hasWs <;>
    simp [destroy, h, h2, close, stop]

/-!  Claim theorems. -/

/-- Claim C3, as stated, is false: on a destroyed session `send()` still
mutates state — here the buffer grows from empty to one frame (the code
guards only `destroy()` itself with the destroyed flag). -/
theorem destroyed_send_mutates :
    ({ destroyed := true } : Socket).destroyed = true
  ∧ ({ destroyed := true } : Socket).buffer = []
  ∧ (send { destroyed := true }
      ⟨FrameType.MESSAGE, OutData.txt "x"⟩).1.buffer
      = [⟨FrameType.MESSAGE, OutData.txt "x"⟩] :=
  ⟨rfl, rfl, rfl⟩

/-- Claim C3 amended: only `destroy()` is guarded by the destroyed flag
(a further `destroy()` is an idempotent no-op with no state change and
no event); the other public methods are not guarded, e.g. `send` on a
destroyed, unconnected session still appends the frame to the buffer. -/
theorem destroyed_guard (s : Socket) (now : Nat) (f : OutFrame) :
    (s.destroyed = true → destroy now s = (s, []))
  ∧ (s.connected = false →
      send s f = ({ s with buffer := s.buffer ++ [f] }, [])) := by
  constructor
  · intro h
    simp [destroy, h]
  · intro h
    simp [send, h]

/-- Claim C3 amended, witness: a second `destroy()` is a no-op, while
`send` on the same destroyed socket buffers the frame. -/
theorem destroyed_guard_witness :
    destroy 0 { destroyed := true } = ({ destroyed := true }, [])
  ∧ send { destroyed := true } ⟨FrameType.PING, OutData.nodata⟩
      = ({ destroyed := true
           buffer := [⟨FrameType.PING, OutData.nodata⟩] }, []) := by
  have h := destroyed_guard { destroyed := true } 0
    ⟨FrameType.PING, OutData.nodata⟩
  exact ⟨h.1 rfl, by simpa using h.2 rfl⟩

/-- Claim C4, as stated, is false: `fire` performs no blacklist check
and accepts the blacklisted name "error". -/
theorem fire_blacklist_counterexample :
    blacklistSpec "error" = true
  ∧ isOkB (fire { connected := true, binary := true, hasWs := true }
      [JSVal.vstr "error"]) = true :=
  ⟨rfl, rfl⟩

/-- Claim C4 amended: for every blacklisted name, `listen` and `hook`
fail with "Blacklisted event." and inbound fire-and-forget EVENT
dispatch refuses to emit on the application bus (reporting an ERROR
packet back instead); `fire`, however, consults no blacklist and sends
the EVENT packet. -/
theorem blacklist_enforcement (bl : String → Bool) (s : Socket)
    (name : String) (rest : List JSVal) (v : JSVal) (hb : bl name = true) :
    listen bl s name = Except.error "Blacklisted event."
  ∧ (s.hooks.contains name = false →
      hook bl s name = Except.error "Blacklisted event.")
  ∧ hasEventsEmit (handleEvent bl s name rest).2 = false
  ∧ handleEvent bl s name rest = sendErrorFn s (-1)
      (JSVal.vstr ("Cannot emit blacklisted event: " ++ name ++ "."))
      JSVal.vundef JSVal.vundef
  ∧ (isStr v = true → isOkB (fire s (v :: rest)) = true) := by
  refine ⟨?_, ?_, ?_, ?_, ?_⟩
  · simp [listen, hb]
  · intro hh
    simp [hook, hb]
    simpa using hh
  · by_cases hc : s.connected <;>
      simp [handleEvent, hb, sendErrorFn, sendPacketFn, sendBinaries,
        send, hc, hasEventsEmit, eventsEmitB]
  · simp [handleEvent, hb]
  · intro hv
    cases v <;> simp_all [isStr, fire, isOkB]

/-- Claim C4 amended, witness at the blacklisted name "error". -/
theorem blacklist_enforcement_witness :
    listen blacklistSpec {} "error" = Except.error "Blacklisted event."
  ∧ hook blacklistSpec {} "error" = Except.error "Blacklisted event."
  ∧ hasEventsEmit (handleEvent blacklistSpec {} "error" []).2 = false
  ∧ isOkB (fire {} [JSVal.vstr "error"]) = true := by
  have h := blacklist_enforcement blacklistSpec {} "error" []
    (JSVal.vstr "error") rfl
  exact ⟨h.1, h.2.1 rfl, h.2.2.1, h.2.2.2.2 rfl⟩

/-- Claim C5, as stated, is false: close code 1000 is clean, yet on a
session that never connected `onClose` still emits the error "Could not
connect.". -/
theorem onclose_clean_error_counterexample :
    cleanClose 1000 = true
  ∧ ({ hasWs := true } : Socket).connected = false
  ∧ hasEmitErr (onClose [] 0 { hasWs := true } 1000 "").2 = true :=
  ⟨rfl, rfl, rfl⟩

/-- Claim C5 amended: for clean codes 1000/1001 no error is emitted
provided the session had connected, while a never-connected session
emits "Could not connect."; for any other code an error is synthesized
whose message carries the textual code looked up in the static codes
table (UNKNOWN_CODE on a miss) and is emitted on the error channel; in
all cases an inbound session then destroys itself and an outbound
session runs close(). -/
theorem onclose_behavior (codes : List (Nat × String)) (now : Nat)
    (s : Socket) (code : Nat) (reason : String) :
    (cleanClose code = true → s.connected = true →
      hasEmitErr (onClose codes now s code reason).2 = false)
  ∧ (cleanClose code = true → s.connected = false →
      (onClose codes now s code reason).2.head?
        = some (Effect.emitErr "Could not connect."))
  ∧ (cleanClose code = false →
      (onClose codes now s code reason).2.head?
        = some (Effect.emitWsErr
            ("Websocket Closed: "
              ++ (if reason == "" then "Unknown reason" else reason)
              ++ " (code=" ++ ((codes.lookup code).getD "UNKNOWN_CODE")
              ++ ").") reason code))
  ∧ (s.inbound = true → (onClose codes now s code reason).1.destroyed = true)
  ∧ (s.inbound = false →
      (onClose codes now s code reason).1.connected = false
    ∧ (onClose codes now s code reason).1.time = now) := by
  refine ⟨?_, ?_, ?_, ?_, ?_⟩
  · intro hcl hc
    by_cases hi : s.inbound <;>
      simp [onClose, hcl, hc, hi, hasEmitErr_close, hasEmitErr_destroy]
  · intro hcl hc
    by_cases hi : s.inbound <;> simp [onClose, hcl, hc, hi]
  · intro hcl
    by_cases hi : s.inbound <;> simp [onClose, hcl, hi]
  · intro hi
    by_cases hcl : cleanClose code = true <;>
      simp [onClose, hcl, hi, destroy_destroyed]
  · intro hi
    by_cases hcl : cleanClose code = true <;>
      simp [onClose, hcl, hi, close]

/-- Claim C5 amended, witness: an unknown code on a connected outbound
session emits the synthesized UNKNOWN_CODE error. -/
theorem onclose_behavior_witness :
    (onClose [(1006, "ABNORMAL_CLOSURE")] 2 { connected := true } 1005
        "").2.head?
      = some (Effect.emitWsErr
          "Websocket Closed: Unknown reason (code=UNKNOWN_CODE)." "" 1005) := by
  have h := (onclose_behavior [(1006, "ABNORMAL_CLOSURE")] 2
    { connected := true } 1005 "").2.2.1 rfl
  simpa using h

/-- Claim C6, as stated, is false: with a reassembly in progress a
non-binary PING frame does not raise a protocol error — it is answered
with a PONG and leaves the in-progress packet untouched (only non-binary
MESSAGE frames are rejected). -/
theorem reassembly_ping_counterexample :
    handleFrame (fun _ => Except.error "e")
      (fun _ => { ptype := PacketType.EVENT }) 0
      { connected := true
        packet := some { ptype := PacketType.EVENT
                         attachments := 2
                         buffers := [[1]] } }
      ⟨FrameType.PING, InData.txt ""⟩
      = Except.ok
          ({ connected := true
             packet := some { ptype := PacketType.EVENT
                              attachments := 2
                              buffers := [[1]] } },
           [Effect.wsSend ⟨FrameType.PONG, OutData.nodata⟩ false], none) :=
  rfl

/-- Claim C6 amended: at most one packet is in reassembly (the single
`packet` slot); while one is in progress a MESSAGE frame must be binary
— a textual MESSAGE raises a protocol error — and its bytes are appended
in arrival order, with the slot cleared and the packet dispatched once
the buffer count reaches `attachments`; a textual MESSAGE decoding to
`attachments > 0` becomes the in-progress packet instead of being
dispatched; frames of other types (e.g. PING) bypass reassembly and are
handled by their ordinary handlers. -/
theorem reassembly_behavior (fs : String → InPacket)
    (jp : String → Except String JSVal) (now : Nat) (s : Socket)
    (p : InPacket) (bytes : List Nat) (str : String) :
    (s.packet = some p →
      handleMessage fs s ⟨FrameType.MESSAGE, InData.txt str⟩
        = Except.error "Received non-binary frame as attachment.")
  ∧ (s.packet = some p → (p.buffers ++ [bytes]).length = p.attachments →
      handleMessage fs s ⟨FrameType.MESSAGE, InData.bin bytes⟩
        = Except.ok ({ s with packet := none },
            some { p with buffers := p.buffers ++ [bytes] }))
  ∧ (s.packet = some p → (p.buffers ++ [bytes]).length ≠ p.attachments →
      handleMessage fs s ⟨FrameType.MESSAGE, InData.bin bytes⟩
        = Except.ok ({ s with
            packet := some { p with buffers := p.buffers ++ [bytes] } },
            none))
  ∧ (s.packet = none → 0 < (fs str).attachments →
      handleMessage fs s ⟨FrameType.MESSAGE, InData.txt str⟩
        = Except.ok ({ s with packet := some (fs str) }, none))
  ∧ (s.packet = none → (fs str).attachments = 0 →
      handleMessage fs s ⟨FrameType.MESSAGE, InData.txt str⟩
        = Except.ok (s, some (fs str)))
  ∧ (s.packet = some p →
      handleFrame jp fs now s ⟨FrameType.PING, InData.txt str⟩
        = Except.ok ((send s ⟨FrameType.PONG, OutData.nodata⟩).1,
            (send s ⟨FrameType.PONG, OutData.nodata⟩).2, none)) := by
  refine ⟨?_, ?_, ?_, ?_, ?_, ?_⟩
  · intro hp
    simp [handleMessage, hp]
  · intro hp hlen
    simp [handleMessage, hp, hlen]
  · intro hp hlen
    have h2 : ¬ (p.buffers.length + 1 = p.attachments) := by
      simpa using hlen
    simp [handleMessage, hp, h2]
  · intro hp hatt
    have h0 : ¬ (fs str).attachments = 0 := by omega
    simp [handleMessage, hp, h0]
  · intro hp hatt
    simp [handleMessage, hp, hatt]
  · intro hp
    simp [handleFrame]

/-- Claim C6 amended, witness: a binary MESSAGE completing a one-
attachment reassembly clears the slot and dispatches the packet. -/
theorem reassembly_behavior_witness :
    handleMessage (fun _ => { ptype := PacketType.EVENT })
      { packet := some { ptype := PacketType.EVENT, attachments := 1 } }
      ⟨FrameType.MESSAGE, InData.bin [7]⟩
      = Except.ok ({ packet := none },
          some { ptype := PacketType.EVENT
                 attachments := 1
                 buffers := [[7]] }) := by
  have h := (reassembly_behavior (fun _ => { ptype := PacketType.EVENT })
    (fun _ => Except.error "e") 0
    { packet := some { ptype := PacketType.EVENT, attachments := 1 } }
    { ptype := PacketType.EVENT, attachments := 1 } [7] "").2.1 rfl rfl
  simpa using h

/-- Claim C7: `close()` clears the in-progress packet, the connected
flag and the challenge flag, resets sequence and lastPing to 0, rejects
every outstanding job with "Job timed out." while removing it from the
jobs table, replaces all transport callbacks with no-ops, closes the
transport, and does not emit a close event. -/
theorem close_spec (now : Nat) (s : Socket) :
    (close now s).1.packet = none
  ∧ (close now s).1.connected = false
  ∧ (close now s).1.challenge = false
  ∧ (close now s).1.sequence = 0
  ∧ (close now s).1.lastPing = 0
  ∧ (close now s).1.jobs = []
  ∧ (∀ id t, (id, t) ∈ s.jobs →
      Effect.jobReject id jobTimeoutErr ∈ (close now s).2)
  ∧ (s.hasWs = true →
      (close now s).2 = jobTrace s.jobs ++ [Effect.wsDetach, Effect.wsClose])
  ∧ hasEmitClose (close now s).2 = false := by
  by_cases h : s.hasWs
  · refine ⟨rfl, rfl, rfl, rfl, rfl, rfl, ?_, ?_, ?_⟩
    · intro id t hm
      simp only [close, h, if_true]
      exact List.mem_append_left _ (jobReject_mem_jobTrace s.jobs id t hm)
    · intro _
      simp [close, h]
    · simp [close, h, hasEmitClose, emitCloseB, emitCloseB_jobTrace]
  · refine ⟨rfl, rfl, rfl, rfl, rfl, rfl, ?_, ?_, ?_⟩
    · intro id t hm
      simp only [close, h, if_false]
      exact jobReject_mem_jobTrace s.jobs id t hm
    · intro hw
      exact absurd hw (by simp [h])
    · simp [close, h, hasEmitClose, emitCloseB_jobTrace]

/-- Claim C7 witness at a concrete socket with one job and a live
transport. -/
theorem close_spec_witness :
    (close 3 { hasWs := true, jobs := [(1, 0)] }).2
      = [Effect.jobDelete 1, Effect.jobReject 1 jobTimeoutErr,
         Effect.wsDetach, Effect.wsClose] := by
  have h := (close_spec 3 { hasWs := true, jobs := [(1, 0)] }).2.2.2.2.2.2.2.1 rfl
  simpa [jobTrace] using h

/-- Claim C8: inbound error objects are coerced field-wise. A non-string
message becomes "No message.", a code that is neither null, a number nor
a string becomes null, a non-string type becomes null, and values of the
permitted types pass through unchanged; `handleError` applies exactly
these casts to the fields of the received error object. -/
theorem cast_spec (v : JSVal) (s t : String) (n : Int) (sk : Socket)
    (e : JSVal) :
    castMsg (JSVal.vstr s) = s
  ∧ (isStr v = false → castMsg v = "No message.")
  ∧ castCode JSVal.vnull = JSVal.vnull
  ∧ castCode (JSVal.vnum n) = JSVal.vnum n
  ∧ castCode (JSVal.vstr t) = JSVal.vstr t
  ∧ (isNullNumStr v = false → castCode v = JSVal.vnull)
  ∧ castType (JSVal.vstr t) = JSVal.vstr t
  ∧ (isStr v = false → castType v = JSVal.vnull)
  ∧ handleError sk (-1) e = Except.ok (sk, [Effect.emitErrObj
      ⟨castMsg (getField e "message"), castCode (getField e "code"),
       castType (getField e "type")⟩]) := by
  refine ⟨rfl, ?_, rfl, rfl, rfl, ?_, rfl, ?_, ?_⟩
  · intro h; cases v <;> simp_all [isStr, castMsg]
  · intro h; cases v <;> simp_all [isNullNumStr, castCode]
  · intro h; cases v <;> simp_all [isStr, castType]
  · simp [handleError]

/-- Claim C8 witness: a boolean value is not a permitted message, code
or type, and each cast falls back accordingly. -/
theorem cast_spec_witness :
    castMsg (JSVal.vbool true) = "No message."
  ∧ castCode (JSVal.vbool true) = JSVal.vnull
  ∧ castType (JSVal.vbool true) = JSVal.vnull := by
  have h := cast_spec (JSVal.vbool true) "a" "b" 0 {} JSVal.vnull
  exact ⟨h.2.1 rfl, h.2.2.2.2.2.1 rfl, h.2.2.2.2.2.2.2.1 rfl⟩

/-- Claim C9: `call()` allocates the current sequence value as the call
id and increments the sequence with wrap-around modulo 2^32, so after
the call with id 2^32-1 the next allocated id is 0; an id that collides
with a live job aborts the call. -/
theorem sequence_wrap (now : Nat) (s : Socket) (nm : String)
    (rest : List JSVal) :
    ((s.jobs.lookup (Int.ofNat s.sequence)).isSome = true →
      call now s (JSVal.vstr nm :: rest) = Except.error "ID collision.")
  ∧ ((s.jobs.lookup (Int.ofNat s.sequence)).isSome = false →
      callIdOf (call now s (JSVal.vstr nm :: rest))
        = some (Int.ofNat s.sequence)
    ∧ callSeqOf (call now s (JSVal.vstr nm :: rest))
        = some ((s.sequence + 1) % 4294967296))
  ∧ (s.sequence = 4294967295 →
      (s.jobs.lookup (Int.ofNat s.sequence)).isSome = false →
      callSeqOf (call now s (JSVal.vstr nm :: rest)) = some 0) := by
  have hs : ∀ p : OutPacket, p.buffers = [] →
      (sendPacketFn { s with sequence := (s.sequence + 1) % 4294967296 }
        p).1.sequence = (s.sequence + 1) % 4294967296 :=
    fun p hp => sendPacketFn_sequence _ p hp
  have hseqq : (s.jobs.lookup (Int.ofNat s.sequence)).isSome = false →
      callSeqOf (call now s (JSVal.vstr nm :: rest))
        = some ((s.sequence + 1) % 4294967296) := by
    intro hcol
    simp only [call]
    rw [if_neg (by simp [isStr]),
      if_neg (by rw [hcol]; exact Bool.false_ne_true)]
    exact congrArg some (hs _ rfl)
  refine ⟨?_, ?_, ?_⟩
  · intro hcol
    simp only [call]
    rw [if_neg (by simp [isStr]), if_pos hcol]
  · intro hcol
    refine ⟨?_, hseqq hcol⟩
    simp only [call]
    rw [if_neg (by simp [isStr]),
      if_neg (by rw [hcol]; exact Bool.false_ne_true)]
    rfl
  · intro hw hcol
    rw [hseqq hcol, hw]

/-- Claim C9 witness: a live job under the allocated id aborts the
call. -/
theorem sequence_wrap_witness :
    call 0 { sequence := 5, jobs := [(5, 0)] } [JSVal.vstr "a"]
      = Except.error "ID collision." := by
  exact (sequence_wrap 0 { sequence := 5, jobs := [(5, 0)] } "a" []).1 rfl

/-- Claim C1: for every inbound ACK or BINARY_ACK packet the id must not
be -1 and the decoded data must be null or an array; with err = data[0]
and result = data[1], a truthy err must be an object and rejects the job
registered under the id with an Error carrying the cast message, code
and type, otherwise the job is resolved with result coerced nullish to
null; in both paths the job is removed from the table before the
resolve/reject effect, and a missing job raises a frame-level error. -/
theorem ack_routing (s : Socket) (pid : Int) (json : JSVal) :
    (pid = -1 → isOkB (ackArm s pid json) = false)
  ∧ (looseNull json = false → isArr json = false →
      isOkB (ackArm s pid json) = false)
  ∧ (∀ e rest, pid ≠ -1 → json = JSVal.varr (e :: rest) →
      jsTruthy e = true →
      ((typeofObject e = false → isOkB (ackArm s pid json) = false)
      ∧ (s.jobs.lookup pid = none → isOkB (ackArm s pid json) = false)
      ∧ (∀ t, typeofObject e = true → s.jobs.lookup pid = some t →
          ackArm s pid json
            = Except.ok ({ s with jobs := eraseJob s.jobs pid },
                [Effect.jobDelete pid,
                 Effect.jobReject pid
                   ⟨castMsg (getField e "message"),
                    castCode (getField e "code"),
                    castType (getField e "type")⟩]))))
  ∧ (pid ≠ -1 → (looseNull json || isArr json) = true →
      jsTruthy (ackErrOf json) = false →
      ((s.jobs.lookup pid = none → isOkB (ackArm s pid json) = false)
      ∧ (∀ t, s.jobs.lookup pid = some t →
          ackArm s pid json
            = Except.ok ({ s with jobs := eraseJob s.jobs pid },
                [Effect.jobDelete pid,
                 Effect.jobResolve pid (ackResultOf json)])))) := by
  refine ⟨?_, ?_, ?_, ?_⟩
  · intro hp
    subst hp
    simp [ackArm, isOkB]
  · intro h1 h2
    by_cases hp : pid = -1
    · subst hp; simp [ackArm, isOkB]
    · have hpb : (pid == -1) = false := by simp [hp]
      simp [ackArm, hpb, h1, h2, isOkB]
  · intro e rest hp hj ht
    subst hj
    have hpb : (pid == -1) = false := by simp [hp]
    refine ⟨?_, ?_, ?_⟩
    · intro hto
      simp [ackArm, hpb, looseNull, isArr, ackErrOf, ht, hto, isOkB]
    · intro hnone
      by_cases hto : typeofObject e = true
      · simp [ackArm, hpb, looseNull, isArr, ackErrOf, ht, hto,
          handleError, hnone, isOkB]
      · simp only [Bool.not_eq_true] at hto
        simp [ackArm, hpb, looseNull, isArr, ackErrOf, ht, hto, isOkB]
    · intro t hto hsome
      simp [ackArm, hpb, looseNull, isArr, ackErrOf, ht, hto,
        handleError, hsome]
  · intro hp hna hf
    have hpb : (pid == -1) = false := by simp [hp]
    refine ⟨?_, ?_⟩
    · intro hnone
      simp [ackArm, hpb, hna, hf, handleAck, hnone, isOkB]
    · intro t hsome
      simp [ackArm, hpb, hna, hf, handleAck, hsome]

/-- Claim C1 witness: an ACK carrying [null, 7] for live job 5 removes
the job and then resolves it with 7. -/
theorem ack_routing_witness :
    ackArm { jobs := [(5, 0)] } 5 (JSVal.varr [JSVal.vnull, JSVal.vnum 7])
      = Except.ok ({ jobs := [] },
          [Effect.jobDelete 5, Effect.jobResolve 5 (JSVal.vnum 7)]) := by
  have h := (ack_routing { jobs := [(5, 0)] } 5
    (JSVal.varr [JSVal.vnull, JSVal.vnum 7])).2.2.2
  have h2 := (h (by decide) rfl rfl).2 0 rfl
  simpa [eraseJob, ackResultOf, looseNull] using h2

/-- Claim C2, as stated, is false: `onOpen` assigns `connected := true`
first (trace head) and only then transmits the buffered frame, so the
buffer is not flushed before `connected` is set. -/
theorem open_flush_counterexample :
    (onOpen { buffer := [⟨FrameType.MESSAGE, OutData.txt "x"⟩] }).2.head?
        = some (Effect.setConn true)
  ∧ ((onOpen { buffer := [⟨FrameType.MESSAGE, OutData.txt "x"⟩] }).2.drop 1).any
        wsSendB = true :=
  ⟨rfl, rfl⟩

/-- Claim C2 amended: on the transport open event `connected` is set to
true first; then an inbound session sends its handshake OPEN frame and
CONNECT packet; then every frame buffered by pre-open `send()` calls is
transmitted in FIFO order; then `open` is emitted.  The buffer is left
empty, so any frame submitted after the open handler is transmitted
immediately (hence after the flush). -/
theorem open_flush_order (s : Socket) :
    (s.inbound = false →
      onOpen s = ({ s with connected := true, buffer := [] },
        Effect.setConn true ::
          (s.buffer.map (fun f => Effect.wsSend f (f.binary && s.binary))
            ++ [Effect.emitOpen])))
  ∧ (s.inbound = true →
      onOpen s = ({ s with connected := true, buffer := [] },
        Effect.setConn true ::
          (Effect.wsSend ⟨FrameType.OPEN,
              OutData.txt (handshakeJSON s.pingInterval s.pingTimeout)⟩ false ::
           Effect.wsSend ⟨FrameType.MESSAGE,
              OutData.pktText { ptype := PacketType.CONNECT }⟩ false ::
           (s.buffer.map (fun f => Effect.wsSend f (f.binary && s.binary))
             ++ [Effect.emitOpen]))))
  ∧ (∀ f, send (onOpen s).1 f
      = ((onOpen s).1, [Effect.wsSend f (f.binary && s.binary)])) := by
  refine ⟨?_, ?_, ?_⟩
  · intro hi
    simp [onOpen, hi, flush_connected]
  · intro hi
    simp [onOpen, hi, send, sendPacketFn, sendBinaries, flush_connected,
      OutFrame.binary]
  · intro f
    by_cases hi : s.inbound <;>
      simp [onOpen, hi, send, sendPacketFn, sendBinaries, flush_connected,
        OutFrame.binary]

/-- Claim C2 amended, witness: an outbound socket with two buffered
frames flushes them in FIFO order between the connected assignment and
the open emission. -/
theorem open_flush_order_witness :
    onOpen { buffer := [⟨FrameType.MESSAGE, OutData.txt "a"⟩,
                        ⟨FrameType.MESSAGE, OutData.txt "b"⟩] }
      = ({ connected := true },
         [Effect.setConn true,
          Effect.wsSend ⟨FrameType.MESSAGE, OutData.txt "a"⟩ false,
          Effect.wsSend ⟨FrameType.MESSAGE, OutData.txt "b"⟩ false,
          Effect.emitOpen]) := by
  have h := (open_flush_order
    { buffer := [⟨FrameType.MESSAGE, OutData.txt "a"⟩,
                 ⟨FrameType.MESSAGE, OutData.txt "b"⟩] }).1 rfl
  simpa using h

/-- Claim C10: every `close()` stamps `time` with the current timestamp,
restarting the 10-second connect-timeout window measured by the liveness
tick, so after `reconnect()` (which closes first) the connect timeout is
measured from the reconnect attempt. -/
theorem close_restarts_timeout (now now2 : Nat) (s s2 : Socket) :
    (close now s).1.time = now
  ∧ (reconnect now s).1.time = now
  ∧ (s2.connected = false → now2 - s2.time ≤ 10000 →
      stall now2 s2 = (s2, []))
  ∧ (now2 - now ≤ 10000 →
      stall now2 (reconnect now s).1 = ((reconnect now s).1, [])) := by
  refine ⟨rfl, rfl, ?_, ?_⟩
  · intro hc ht
    have h10 : ¬ (now2 - s2.time > 10000) := by omega
    simp [stall, hc, h10]
  · intro ht
    have hc : (reconnect now s).1.connected = false := rfl
    have htm : (reconnect now s).1.time = now := rfl
    have h10 : ¬ (now2 - (reconnect now s).1.time > 10000) := by
      rw [htm]; omega
    simp [stall, hc, h10]

/-- Claim C10 witness: 4000 ms after a reconnect the connect-timeout
branch of the tick does not fire. -/
theorem close_restarts_timeout_witness :
    stall 5000 (reconnect 1000 { hasWs := true, connected := true }).1
      = ((reconnect 1000 { hasWs := true, connected := true }).1, []) := by
  have h := close_restarts_timeout 1000 5000
    { hasWs := true, connected := true } {}
  exact h.2.2.2 (by norm_num)

end Bsock
